import Mathlib

/-
Verification of the DoorsEngine light/name storage core.

Shallow embedding of:
  src/ECS/Components/Light.h        (light data structures, attenuation clamp)
  src/Render/Shaders/ConstantBuffer.h (constant-buffer byte-width computation)
  the NameSystem / light variant store operations (declared in the repository
  headers; their bodies are not part of the excerpt and are modelled from the
  spec where needed).

Floats are modelled as rationals extended with a NaN element: the code performs
no arithmetic on the light parameters, only comparisons (the attenuation clamp)
and verbatim copies, so this model is exact for every operation embedded here.
IEEE semantics make every ordered comparison with NaN false, which the model
mirrors.
-/

namespace DoorsEngine

/-- Model of a C float value: either NaN or an exact (rational) value. -/
inductive Flt where
  | nan : Flt
  | val : ℚ → Flt
deriving DecidableEq, Repr

/-- Strict greater-than on modelled floats; any comparison involving NaN is
false, as in IEEE 754. -/
def Flt.gtb : Flt → Flt → Bool
  | Flt.val a, Flt.val b => decide (b < a)
  | _, _ => false

/-- The literal 0.01f used by the attenuation clamp. -/
def c001 : Flt := Flt.val (mkRat 1 100)

/-- Model of DirectX::XMFLOAT4. -/
structure Float4 where
  x : Flt
  y : Flt
  z : Flt
  w : Flt
deriving DecidableEq, Repr

/-- Model of DirectX::XMFLOAT3. -/
structure Float3 where
  x : Flt
  y : Flt
  z : Flt
deriving DecidableEq, Repr

/-- The all-NaN 4-vector produced by the default light constructors. -/
def Float4.nan4 : Float4 := ⟨Flt.nan, Flt.nan, Flt.nan, Flt.nan⟩

/-- The all-NaN 3-vector produced by the default light constructors. -/
def Float3.nan3 : Float3 := ⟨Flt.nan, Flt.nan, Flt.nan⟩

/-- An all-zero color vector, used as a concrete test value. -/
def Float4.zero4 : Float4 := ⟨Flt.val 0, Flt.val 0, Flt.val 0, Flt.val 0⟩

/-- enum LightType from Light.h. -/
inductive LightType where
  | DIRECTIONAL : LightType
  | POINT : LightType
  | SPOT : LightType
deriving DecidableEq, Repr

/-- struct DirLight: ambient, diffuse, specular color vectors only. -/
structure DirLight where
  ambient : Float4
  diffuse : Float4
  specular : Float4
deriving DecidableEq, Repr

/-- struct PointLight: colors plus attenuation and range, in declaration
order of the members in Light.h. -/
structure PointLight where
  ambient : Float4
  diffuse : Float4
  specular : Float4
  att : Float3
  range : Flt
deriving DecidableEq, Repr

/-- struct SpotLight: the PointLight members plus the spot exponent. -/
structure SpotLight where
  ambient : Float4
  diffuse : Float4
  specular : Float4
  att : Float3
  range : Flt
  spot : Flt
deriving DecidableEq, Repr

/-- PointLight default constructor: every member set to NaN. -/
def PointLight.mkDefault : PointLight :=
  { ambient := Float4.nan4
    diffuse := Float4.nan4
    specular := Float4.nan4
    att := Float3.nan3
    range := Flt.nan }

/-- SpotLight default constructor: every member set to NaN. -/
def SpotLight.mkDefault : SpotLight :=
  { ambient := Float4.nan4
    diffuse := Float4.nan4
    specular := Float4.nan4
    att := Float3.nan3
    range := Flt.nan
    spot := Flt.nan }

/-- The parameterized PointLight constructor of Light.h: copies colors and
range verbatim and floor-clamps each attenuation component with the ternary
comparison against 0.01f. -/
def PointLight.mkParams (ambient diffuse specular : Float4) (range : Flt)
    (attenuation : Float3) : PointLight :=
  { ambient := ambient
    diffuse := diffuse
    specular := specular
    range := range
    att :=
      { x := if Flt.gtb attenuation.x c001 then attenuation.x else c001
        y := if Flt.gtb attenuation.y c001 then attenuation.y else c001
        z := if Flt.gtb attenuation.z c001 then attenuation.z else c001 } }

/-- The parameterized SpotLight constructor of Light.h: like the PointLight
one, additionally storing the spot exponent verbatim. -/
def SpotLight.mkParams (ambient diffuse specular : Float4) (range spot : Flt)
    (attenuation : Float3) : SpotLight :=
  { ambient := ambient
    diffuse := diffuse
    specular := specular
    range := range
    spot := spot
    att :=
      { x := if Flt.gtb attenuation.x c001 then attenuation.x else c001
        y := if Flt.gtb attenuation.y c001 then attenuation.y else c001
        z := if Flt.gtb attenuation.z c001 then attenuation.z else c001 } }

/-- PointLight::operator=: copies every member of rhs verbatim (the
self-assignment guard is identity in value semantics). -/
def PointLight.copyAssign (_self rhs : PointLight) : PointLight :=
  { ambient := rhs.ambient
    diffuse := rhs.diffuse
    specular := rhs.specular
    range := rhs.range
    att := rhs.att }

/-- PointLight copy constructor: delegates to operator= on an arbitrary
pre-state (the members are uninitialized before the assignment runs). -/
def PointLight.copyCtor (rhs : PointLight) : PointLight :=
  PointLight.copyAssign PointLight.mkDefault rhs

/-- ByteWidth computed by the constant-buffer setup in ConstantBuffer.h:
sizeof(T) + (16 - sizeof(T) mod 16). -/
def ConstantBuffer.byteWidth (s : Nat) : Nat := s + (16 - s % 16)

/-- EntityID: an opaque integer handle. -/
abbrev EntityID := Nat

/-- Error kinds named by the spec: a lookup miss and a rejected bulk insert. -/
inductive ECSError where
  | notFound : ECSError
  | validationError : ECSError
deriving DecidableEq, Repr

/-- Modelled from the spec: the Name component behind NameSystem (its header
Components/Name.h is not in the excerpt) is a dense array of id/name pairs,
kept here as two parallel lists. -/
structure NameComponent where
  ids : List EntityID
  names : List String
deriving DecidableEq, Repr

/-- Modelled from the spec: NameSystem::CheckInputData validates a batch of
ids and names: equal cardinality, no duplicate id or name inside the batch,
and no id or name already registered. -/
def checkInputData (reg : NameComponent) (ids : List EntityID)
    (names : List String) : Bool :=
  decide (ids.length = names.length) &&
  decide ids.Nodup &&
  decide names.Nodup &&
  decide (∀ i ∈ ids, i ∉ reg.ids) &&
  decide (∀ n ∈ names, n ∉ reg.names)

/-- Modelled from the spec: NameSystem::AddRecords (BulkAdd) validates the
whole batch first and either appends every pair or fails with a validation
error, leaving the registry unchanged. -/
def addRecords (reg : NameComponent) (ids : List EntityID)
    (names : List String) : Except ECSError NameComponent :=
  if checkInputData reg ids names then
    Except.ok { ids := reg.ids ++ ids, names := reg.names ++ names }
  else
    Except.error ECSError.validationError

/-- Modelled from the spec: NameSystem::GetIdByName scans the id/name pairs
and fails with NotFound when the name is absent. -/
def getIdByName (reg : NameComponent) (name : String) : Except ECSError EntityID :=
  match (reg.ids.zip reg.names).find? (fun p => p.2 == name) with
  | some p => Except.ok p.1
  | none => Except.error ECSError.notFound

/-- Modelled from the spec: NameSystem::GetNameById scans the id/name pairs
and fails with NotFound when the id is absent; on success it yields the
stored name. -/
def getNameById (reg : NameComponent) (id : EntityID) : Except ECSError String :=
  match (reg.ids.zip reg.names).find? (fun p => p.1 == id) with
  | some p => Except.ok p.2
  | none => Except.error ECSError.notFound

/-- struct DirLights: parallel ids and parameter arrays. -/
structure DirLights where
  ids : List EntityID
  data : List DirLight
deriving DecidableEq, Repr

/-- struct PointLights: parallel ids and parameter arrays. -/
structure PointLights where
  ids : List EntityID
  data : List PointLight
deriving DecidableEq, Repr

/-- struct SpotLights: parallel ids and parameter arrays. -/
structure SpotLights where
  ids : List EntityID
  data : List SpotLight
deriving DecidableEq, Repr

/-- struct Light (the component): top-level parallel arrays of ids, type
tags and active flags, plus the three kind-specific sub-stores. -/
structure Light where
  ids : List EntityID
  types : List LightType
  isActive : List Bool
  dirLights : DirLights
  pointLights : PointLights
  spotLights : SpotLights
deriving DecidableEq, Repr

/-- The ids of a batch that carry a given kind tag, in batch order. -/
def kindIds (ids : List EntityID) (kinds : List LightType) (k : LightType) :
    List EntityID :=
  ((ids.zip kinds).filter (fun p => p.2 == k)).map Prod.fst

/-- Modelled from the spec: LightVariantStore.BulkAdd validates the batch
(equal id/kind cardinality, per-kind parameter counts matching the kind tags,
no duplicate id in the batch, no id already stored), then appends ids, kind
tags and active flags (defaulting to true) to the top-level parallel arrays
and forwards each entity to the sub-store of its kind. On any violation the
whole call fails and the store is unchanged. -/
def Light.bulkAdd (L : Light) (ids : List EntityID) (kinds : List LightType)
    (dirParams : List DirLight) (pointParams : List PointLight)
    (spotParams : List SpotLight) : Except ECSError Light :=
  if (decide (ids.length = kinds.length) &&
      decide ((kindIds ids kinds LightType.DIRECTIONAL).length = dirParams.length) &&
      decide ((kindIds ids kinds LightType.POINT).length = pointParams.length) &&
      decide ((kindIds ids kinds LightType.SPOT).length = spotParams.length) &&
      decide ids.Nodup &&
      decide (∀ i ∈ ids, i ∉ L.ids)) then
    Except.ok
      { ids := L.ids ++ ids
        types := L.types ++ kinds
        isActive := L.isActive ++ List.replicate ids.length true
        dirLights :=
          { ids := L.dirLights.ids ++ kindIds ids kinds LightType.DIRECTIONAL
            data := L.dirLights.data ++ dirParams }
        pointLights :=
          { ids := L.pointLights.ids ++ kindIds ids kinds LightType.POINT
            data := L.pointLights.data ++ pointParams }
        spotLights :=
          { ids := L.spotLights.ids ++ kindIds ids kinds LightType.SPOT
            data := L.spotLights.data ++ spotParams } }
  else
    Except.error ECSError.validationError

/-- Modelled from the spec: LightVariantStore.GetKind resolves an id through
the top-level parallel arrays and fails with NotFound when absent. -/
def Light.getKind (L : Light) (id : EntityID) : Except ECSError LightType :=
  match (L.ids.zip L.types).find? (fun p => p.1 == id) with
  | some p => Except.ok p.2
  | none => Except.error ECSError.notFound

/-- Modelled from the spec: the persistence stream is opaque to this core
(the exact binary layout is owned by the persistence subsystem), so it is
modelled as a list of abstract tokens; float tokens carry the Flt value
verbatim, which is the bit-for-bit guarantee. -/
inductive Tok where
  | tnat : Nat → Tok
  | tstr : String → Tok
  | tflt : Flt → Tok
deriving DecidableEq, Repr

/-- Read one natural-number token. -/
def readNat : List Tok → Option (Nat × List Tok)
  | Tok.tnat n :: rest => some (n, rest)
  | _ => none

/-- Read one string token. -/
def readStr : List Tok → Option (String × List Tok)
  | Tok.tstr s :: rest => some (s, rest)
  | _ => none

/-- Read one float token. -/
def readFlt : List Tok → Option (Flt × List Tok)
  | Tok.tflt f :: rest => some (f, rest)
  | _ => none

/-- Read a boolean encoded as a 0/1 natural token. -/
def readBool : List Tok → Option (Bool × List Tok)
  | Tok.tnat 0 :: rest => some (false, rest)
  | Tok.tnat 1 :: rest => some (true, rest)
  | _ => none

/-- Read a light-kind tag encoded as its enum value. -/
def readLightType : List Tok → Option (LightType × List Tok)
  | Tok.tnat 0 :: rest => some (LightType.DIRECTIONAL, rest)
  | Tok.tnat 1 :: rest => some (LightType.POINT, rest)
  | Tok.tnat 2 :: rest => some (LightType.SPOT, rest)
  | _ => none

/-- Read exactly n records with the given record reader. -/
def readListN {α : Type} (r : List Tok → Option (α × List Tok)) :
    Nat → List Tok → Option (List α × List Tok)
  | 0, ts => some ([], ts)
  | n + 1, ts => do
    let (x, ts1) ← r ts
    let (xs, ts2) ← readListN r n ts1
    some (x :: xs, ts2)

/-- Read a length-prefixed list of records. -/
def readListP {α : Type} (r : List Tok → Option (α × List Tok))
    (ts : List Tok) : Option (List α × List Tok) := do
  let (n, ts1) ← readNat ts
  readListN r n ts1

/-- Encode a natural number (an id or a length). -/
def encNat (n : Nat) : List Tok := [Tok.tnat n]

/-- Encode a string (a name). -/
def encStr (s : String) : List Tok := [Tok.tstr s]

/-- Encode a boolean as a 0/1 natural token. -/
def encBool (b : Bool) : List Tok := [Tok.tnat (cond b 1 0)]

/-- Encode a light-kind tag as its enum value. -/
def encLightType : LightType → List Tok
  | LightType.DIRECTIONAL => [Tok.tnat 0]
  | LightType.POINT => [Tok.tnat 1]
  | LightType.SPOT => [Tok.tnat 2]

/-- Encode a length-prefixed list of records. -/
def encListP {α : Type} (enc : α → List Tok) (l : List α) : List Tok :=
  Tok.tnat l.length :: (l.map enc).flatten

/-- Encode a 4-component float vector. -/
def encFloat4 (v : Float4) : List Tok :=
  [Tok.tflt v.x, Tok.tflt v.y, Tok.tflt v.z, Tok.tflt v.w]

/-- Read a 4-component float vector. -/
def readFloat4 : List Tok → Option (Float4 × List Tok)
  | Tok.tflt a :: Tok.tflt b :: Tok.tflt c :: Tok.tflt d :: rest =>
      some (⟨a, b, c, d⟩, rest)
  | _ => none

/-- Encode a 3-component float vector. -/
def encFloat3 (v : Float3) : List Tok :=
  [Tok.tflt v.x, Tok.tflt v.y, Tok.tflt v.z]

/-- Read a 3-component float vector. -/
def readFloat3 : List Tok → Option (Float3 × List Tok)
  | Tok.tflt a :: Tok.tflt b :: Tok.tflt c :: rest => some (⟨a, b, c⟩, rest)
  | _ => none

/-- Encode a DirLight record field by field. -/
def encDirLight (d : DirLight) : List Tok :=
  encFloat4 d.ambient ++ encFloat4 d.diffuse ++ encFloat4 d.specular

/-- Read a DirLight record field by field. -/
def readDirLight (ts : List Tok) : Option (DirLight × List Tok) := do
  let (a, ts1) ← readFloat4 ts
  let (d, ts2) ← readFloat4 ts1
  let (s, ts3) ← readFloat4 ts2
  some (⟨a, d, s⟩, ts3)

/-- Encode a PointLight record field by field. -/
def encPointLight (p : PointLight) : List Tok :=
  encFloat4 p.ambient ++ encFloat4 p.diffuse ++ encFloat4 p.specular ++
  encFloat3 p.att ++ [Tok.tflt p.range]

/-- Read a PointLight record field by field. -/
def readPointLight (ts : List Tok) : Option (PointLight × List Tok) := do
  let (a, ts1) ← readFloat4 ts
  let (d, ts2) ← readFloat4 ts1
  let (s, ts3) ← readFloat4 ts2
  let (at3, ts4) ← readFloat3 ts3
  let (r, ts5) ← readFlt ts4
  some (⟨a, d, s, at3, r⟩, ts5)

/-- Encode a SpotLight record field by field. -/
def encSpotLight (p : SpotLight) : List Tok :=
  encFloat4 p.ambient ++ encFloat4 p.diffuse ++ encFloat4 p.specular ++
  encFloat3 p.att ++ [Tok.tflt p.range, Tok.tflt p.spot]

/-- Read a SpotLight record field by field. -/
def readSpotLight (ts : List Tok) : Option (SpotLight × List Tok) := do
  let (a, ts1) ← readFloat4 ts
  let (d, ts2) ← readFloat4 ts1
  let (s, ts3) ← readFloat4 ts2
  let (at3, ts4) ← readFloat3 ts3
  let (r, ts5) ← readFlt ts4
  let (sp, ts6) ← readFlt ts5
  some (⟨a, d, s, at3, r, sp⟩, ts6)

/-- Modelled from the spec: NameSystem::Serialize emits the registry contents
(the id list and the name list) into the stream. -/
def serializeName (reg : NameComponent) : List Tok :=
  encListP encNat reg.ids ++ encListP encStr reg.names

/-- Modelled from the spec: NameSystem::Deserialize reads the registry
contents back from the stream, starting at the given offset. -/
def deserializeNameAt (stream : List Tok) (offset : Nat) : Option NameComponent := do
  let (ids, ts1) ← readListP readNat (stream.drop offset)
  let (names, _) ← readListP readStr ts1
  some ⟨ids, names⟩

/-- Modelled from the spec: the light store serializes its top-level parallel
arrays and each sub-store field by field. -/
def serializeLight (L : Light) : List Tok :=
  encListP encNat L.ids ++
  encListP encLightType L.types ++
  encListP encBool L.isActive ++
  encListP encNat L.dirLights.ids ++
  encListP encDirLight L.dirLights.data ++
  encListP encNat L.pointLights.ids ++
  encListP encPointLight L.pointLights.data ++
  encListP encNat L.spotLights.ids ++
  encListP encSpotLight L.spotLights.data

/-- Modelled from the spec: the light store deserializer reads the same
layout back, starting at the given offset. -/
def deserializeLightAt (stream : List Tok) (offset : Nat) : Option Light := do
  let (ids, ts1) ← readListP readNat (stream.drop offset)
  let (types, ts2) ← readListP readLightType ts1
  let (act, ts3) ← readListP readBool ts2
  let (dIds, ts4) ← readListP readNat ts3
  let (dData, ts5) ← readListP readDirLight ts4
  let (pIds, ts6) ← readListP readNat ts5
  let (pData, ts7) ← readListP readPointLight ts6
  let (sIds, ts8) ← readListP readNat ts7
  let (sData, _) ← readListP readSpotLight ts8
  some ⟨ids, types, act, ⟨dIds, dData⟩, ⟨pIds, pData⟩, ⟨sIds, sData⟩⟩

/-- DirLight viewed as its member tuple. -/
def DirLight.toTriple (d : DirLight) : Float4 × Float4 × Float4 :=
  (d.ambient, d.diffuse, d.specular)

/-- A member tuple viewed as a DirLight. -/
def DirLight.ofTriple (t : Float4 × Float4 × Float4) : DirLight :=
  ⟨t.1, t.2.1, t.2.2⟩

/-- SpotLight viewed as a PointLight record plus the spot exponent. -/
def SpotLight.toPointAndExp (s : SpotLight) : PointLight × Flt :=
  (⟨s.ambient, s.diffuse, s.specular, s.att, s.range⟩, s.spot)

/-- A PointLight record plus a spot exponent viewed as a SpotLight. -/
def SpotLight.ofPointAndExp (p : PointLight × Flt) : SpotLight :=
  ⟨p.1.ambient, p.1.diffuse, p.1.specular, p.1.att, p.1.range, p.2⟩

/-- A concrete registry-test name. -/
def nmA : String := "a"

/-- Another concrete registry-test name. -/
def nmB : String := "b"

/-- C1: for every Point or Spot light built by the parameterized constructor,
each stored attenuation component equals the input component when that input
is greater than 0.01 and equals 0.01 otherwise; in particular attenuation
(0, 0.02, -1) is stored as (0.01, 0.02, 0.01). -/
theorem attenuationClamp_correct (a d s : Float4) (r sp : Flt) (att : Float3) :
    (Flt.gtb att.x c001 = true →
      (PointLight.mkParams a d s r att).att.x = att.x ∧
      (SpotLight.mkParams a d s r sp att).att.x = att.x) ∧
    (Flt.gtb att.x c001 = false →
      (PointLight.mkParams a d s r att).att.x = c001 ∧
      (SpotLight.mkParams a d s r sp att).att.x = c001) ∧
    (Flt.gtb att.y c001 = true →
      (PointLight.mkParams a d s r att).att.y = att.y ∧
      (SpotLight.mkParams a d s r sp att).att.y = att.y) ∧
    (Flt.gtb att.y c001 = false →
      (PointLight.mkParams a d s r att).att.y = c001 ∧
      (SpotLight.mkParams a d s r sp att).att.y = c001) ∧
    (Flt.gtb att.z c001 = true →
      (PointLight.mkParams a d s r att).att.z = att.z ∧
      (SpotLight.mkParams a d s r sp att).att.z = att.z) ∧
    (Flt.gtb att.z c001 = false →
      (PointLight.mkParams a d s r att).att.z = c001 ∧
      (SpotLight.mkParams a d s r sp att).att.z = c001) ∧
    (PointLight.mkParams Float4.zero4 Float4.zero4 Float4.zero4 (Flt.val 1)
        ⟨Flt.val 0, Flt.val (mkRat 2 100), Flt.val (-1)⟩).att =
      ⟨c001, Flt.val (mkRat 2 100), c001⟩ := by
  refine ⟨?_, ?_, ?_, ?_, ?_, ?_, ?_⟩
  case _ => intro h; simp [PointLight.mkParams, SpotLight.mkParams, h]
  case _ => intro h; simp [PointLight.mkParams, SpotLight.mkParams, h]
  case _ => intro h; simp [PointLight.mkParams, SpotLight.mkParams, h]
  case _ => intro h; simp [PointLight.mkParams, SpotLight.mkParams, h]
  case _ => intro h; simp [PointLight.mkParams, SpotLight.mkParams, h]
  case _ => intro h; simp [PointLight.mkParams, SpotLight.mkParams, h]
  case _ => decide

/-- Witness for C1 at concrete inputs: a component above the floor is kept
and a component below the floor is raised to 0.01. -/
theorem attenuationClamp_correct_witness :
    (PointLight.mkParams Float4.zero4 Float4.zero4 Float4.zero4 (Flt.val 1)
        ⟨Flt.val 1, Flt.val 0, Flt.val 1⟩).att.x = Flt.val 1 ∧
    (PointLight.mkParams Float4.zero4 Float4.zero4 Float4.zero4 (Flt.val 1)
        ⟨Flt.val 1, Flt.val 0, Flt.val 1⟩).att.y = c001 :=
  ⟨((attenuationClamp_correct Float4.zero4 Float4.zero4 Float4.zero4 (Flt.val 1)
      (Flt.val 1) ⟨Flt.val 1, Flt.val 0, Flt.val 1⟩).1 (by decide)).1,
   ((attenuationClamp_correct Float4.zero4 Float4.zero4 Float4.zero4 (Flt.val 1)
      (Flt.val 1) ⟨Flt.val 1, Flt.val 0, Flt.val 1⟩).2.2.2.1 (by decide)).1⟩

/-- C4 counterexample: the constructors do not validate positivity — a Point
light constructed with range -1 stores range -1 (not greater than 0), and a
Spot light constructed with spot exponent 0 stores 0 (not greater than 0). -/
theorem storedPositivity_counterexample :
    (PointLight.mkParams Float4.zero4 Float4.zero4 Float4.zero4 (Flt.val (-1))
        ⟨Flt.val 1, Flt.val 1, Flt.val 1⟩).range = Flt.val (-1) ∧
    Flt.gtb (PointLight.mkParams Float4.zero4 Float4.zero4 Float4.zero4
        (Flt.val (-1)) ⟨Flt.val 1, Flt.val 1, Flt.val 1⟩).range (Flt.val 0) = false ∧
    (SpotLight.mkParams Float4.zero4 Float4.zero4 Float4.zero4 (Flt.val 1)
        (Flt.val 0) ⟨Flt.val 1, Flt.val 1, Flt.val 1⟩).spot = Flt.val 0 ∧
    Flt.gtb (SpotLight.mkParams Float4.zero4 Float4.zero4 Float4.zero4 (Flt.val 1)
        (Flt.val 0) ⟨Flt.val 1, Flt.val 1, Flt.val 1⟩).spot (Flt.val 0) = false := by
  decide

/-- C4 amended: the constructors store range and the spot exponent verbatim,
so the positivity constraints hold for a stored light exactly when the
constructor arguments already satisfy them. -/
theorem storedRangeVerbatim (a d s : Float4) (r sp : Flt) (att : Float3) :
    (PointLight.mkParams a d s r att).range = r ∧
    (SpotLight.mkParams a d s r sp att).range = r ∧
    (SpotLight.mkParams a d s r sp att).spot = sp ∧
    (Flt.gtb r (Flt.val 0) = true →
      Flt.gtb (PointLight.mkParams a d s r att).range (Flt.val 0) = true) ∧
    (Flt.gtb sp (Flt.val 0) = true →
      Flt.gtb (SpotLight.mkParams a d s r sp att).spot (Flt.val 0) = true) :=
  ⟨rfl, rfl, rfl, fun h => h, fun h => h⟩

/-- Witness for the amended C4 at concrete positive inputs. -/
theorem storedRangeVerbatim_witness :
    Flt.gtb (PointLight.mkParams Float4.zero4 Float4.zero4 Float4.zero4
      (Flt.val 5) ⟨Flt.val 1, Flt.val 1, Flt.val 1⟩).range (Flt.val 0) = true :=
  (storedRangeVerbatim Float4.zero4 Float4.zero4 Float4.zero4 (Flt.val 5)
    (Flt.val 1) ⟨Flt.val 1, Flt.val 1, Flt.val 1⟩).2.2.2.1 (by decide)

/-- C5: copying a PointLight (copy constructor or copy assignment) reproduces
every member of the source verbatim — the attenuation clamp is not re-applied;
in particular a source attenuation of all zeros, which a fresh clamp would
raise, is copied unchanged. -/
theorem pointLightCopy_verbatim (pre rhs : PointLight) :
    PointLight.copyAssign pre rhs = rhs ∧
    PointLight.copyCtor rhs = rhs ∧
    (PointLight.copyCtor
      { PointLight.mkDefault with att := ⟨Flt.val 0, Flt.val 0, Flt.val 0⟩ }).att =
      ⟨Flt.val 0, Flt.val 0, Flt.val 0⟩ :=
  ⟨rfl, rfl, rfl⟩

/-- C8: a DirLight record consists of exactly the three color vectors (no
position or range member) and a SpotLight record of exactly the PointLight
members plus one spot exponent: the conversions are mutually inverse. -/
theorem lightRecordShape :
    (∀ d : DirLight, DirLight.ofTriple (DirLight.toTriple d) = d) ∧
    (∀ t : Float4 × Float4 × Float4, DirLight.toTriple (DirLight.ofTriple t) = t) ∧
    (∀ s : SpotLight, SpotLight.ofPointAndExp (SpotLight.toPointAndExp s) = s) ∧
    (∀ p : PointLight × Flt, SpotLight.toPointAndExp (SpotLight.ofPointAndExp p) = p) :=
  ⟨fun _ => rfl, fun _ => rfl, fun _ => rfl, fun _ => rfl⟩

/-- C9: a default-constructed PointLight or SpotLight has every parameter
member set to NaN; the clamp is not applied by the default constructor, so
neither the attenuation floor nor the positivity constraints hold for the
default value. -/
theorem defaultLight_nan :
    PointLight.mkDefault.ambient = Float4.nan4 ∧
    PointLight.mkDefault.diffuse = Float4.nan4 ∧
    PointLight.mkDefault.specular = Float4.nan4 ∧
    PointLight.mkDefault.att = Float3.nan3 ∧
    PointLight.mkDefault.range = Flt.nan ∧
    SpotLight.mkDefault.ambient = Float4.nan4 ∧
    SpotLight.mkDefault.diffuse = Float4.nan4 ∧
    SpotLight.mkDefault.specular = Float4.nan4 ∧
    SpotLight.mkDefault.att = Float3.nan3 ∧
    SpotLight.mkDefault.range = Flt.nan ∧
    SpotLight.mkDefault.spot = Flt.nan ∧
    Flt.gtb PointLight.mkDefault.att.x c001 = false ∧
    PointLight.mkDefault.att.x ≠ c001 ∧
    Flt.gtb PointLight.mkDefault.range (Flt.val 0) = false ∧
    Flt.gtb SpotLight.mkDefault.spot (Flt.val 0) = false := by
  decide

/-- C10: the requested constant-buffer ByteWidth is always a multiple of 16
and strictly larger than the payload size; when the payload size is already a
multiple of 16, exactly 16 extra bytes are requested. -/
theorem constantBuffer_byteWidth_padding (s : Nat) :
    16 ∣ ConstantBuffer.byteWidth s ∧ s < ConstantBuffer.byteWidth s ∧
    (s % 16 = 0 → ConstantBuffer.byteWidth s = s + 16) := by
  unfold ConstantBuffer.byteWidth
  refine ⟨?_, ?_, ?_⟩
  · exact Nat.dvd_of_mod_eq_zero (by omega)
  · omega
  · omega

/-- Witness for C10 at a payload size that is a multiple of 16. -/
theorem constantBuffer_byteWidth_padding_witness :
    16 ∣ ConstantBuffer.byteWidth 32 ∧ 32 < ConstantBuffer.byteWidth 32 ∧
    ConstantBuffer.byteWidth 32 = 32 + 16 :=
  ⟨(constantBuffer_byteWidth_padding 32).1,
   (constantBuffer_byteWidth_padding 32).2.1,
   (constantBuffer_byteWidth_padding 32).2.2 (by decide)⟩

/-- The batch validation succeeds exactly when the cardinalities match, the
batch is internally duplicate-free, and nothing in it is already registered. -/
theorem checkInputData_eq_true_iff (reg : NameComponent) (ids : List EntityID)
    (names : List String) :
    checkInputData reg ids names = true ↔
      (ids.length = names.length ∧ ids.Nodup ∧ names.Nodup ∧
       (∀ i ∈ ids, i ∉ reg.ids) ∧ (∀ n ∈ names, n ∉ reg.names)) := by
  simp [checkInputData, and_assoc]

/-- A name absent from the registry makes GetIdByName report NotFound. -/
theorem getIdByName_not_mem (reg : NameComponent) (name : String)
    (h : name ∉ reg.names) :
    getIdByName reg name = Except.error ECSError.notFound := by
  unfold getIdByName
  have hnone : (reg.ids.zip reg.names).find? (fun p => p.2 == name) = none := by
    rw [List.find?_eq_none]
    rintro ⟨i, n⟩ hp
    have hn : n ∈ reg.names := (List.of_mem_zip hp).2
    simp only [beq_iff_eq]
    intro he
    exact h (he ▸ hn)
  rw [hnone]

/-- An id absent from the registry makes GetNameById report NotFound. -/
theorem getNameById_not_mem (reg : NameComponent) (id : EntityID)
    (h : id ∉ reg.ids) :
    getNameById reg id = Except.error ECSError.notFound := by
  unfold getNameById
  have hnone : (reg.ids.zip reg.names).find? (fun p => p.1 == id) = none := by
    rw [List.find?_eq_none]
    rintro ⟨i, n⟩ hp
    have hi : i ∈ reg.ids := (List.of_mem_zip hp).1
    simp only [beq_iff_eq]
    intro he
    exact h (he ▸ hi)
  rw [hnone]

/-- A successful GetNameById yields a name stored in the registry. -/
theorem getNameById_mem (reg : NameComponent) (id : EntityID) (s : String)
    (h : getNameById reg id = Except.ok s) : s ∈ reg.names := by
  unfold getNameById at h
  cases hf : (reg.ids.zip reg.names).find? (fun p => p.1 == id) with
  | none => rw [hf] at h; cases h
  | some p =>
    rw [hf] at h
    have hs : p.2 = s := by
      injection h
    have hp := List.mem_of_find?_eq_some hf
    have := (List.of_mem_zip (a := p.1) (b := p.2) (by simpa using hp)).2
    exact hs ▸ this

/-- C2: AddRecords validates the whole batch (equal cardinality, batch-wide
and against existing state, for both ids and names) and on any violation the
entire call fails with a validation error and nothing is inserted; a batch
with a repeated name always fails, and a never-registered name is still
reported absent by GetIdByName against the unchanged registry. -/
theorem addRecords_atomic (reg : NameComponent) (ids : List EntityID)
    (names : List String)
    (h : ¬ (ids.length = names.length ∧ ids.Nodup ∧ names.Nodup ∧
        (∀ i ∈ ids, i ∉ reg.ids) ∧ (∀ n ∈ names, n ∉ reg.names))) :
    addRecords reg ids names = Except.error ECSError.validationError ∧
    (∀ nm : String, addRecords reg [1, 2] [nm, nm] =
      Except.error ECSError.validationError) ∧
    (∀ nm : String, nm ∉ reg.names →
      getIdByName reg nm = Except.error ECSError.notFound) := by
  refine ⟨?_, ?_, ?_⟩
  · have hc : checkInputData reg ids names = false := by
      rw [Bool.eq_false_iff]
      intro ht
      exact h ((checkInputData_eq_true_iff reg ids names).1 ht)
    simp [addRecords, hc]
  · intro nm
    have hnd : ¬ ([nm, nm].Nodup) := by simp
    have hc : checkInputData reg [1, 2] [nm, nm] = false := by
      rw [Bool.eq_false_iff]
      intro ht
      exact hnd ((checkInputData_eq_true_iff reg [1, 2] [nm, nm]).1 ht).2.2.1
    simp [addRecords, hc]
  · intro nm hnm
    exact getIdByName_not_mem reg nm hnm

/-- Witness for C2: on the empty registry the duplicate-name batch on ids
1 and 2 fails with a validation error, and the name is still absent. -/
theorem addRecords_atomic_witness :
    addRecords ⟨[], []⟩ [1, 2] [nmA, nmA] = Except.error ECSError.validationError ∧
    getIdByName ⟨[], []⟩ nmA = Except.error ECSError.notFound :=
  ⟨(addRecords_atomic ⟨[], []⟩ [1, 2] [nmA, nmA] (by simp)).1,
   (addRecords_atomic ⟨[], []⟩ [1, 2] [nmA, nmA] (by simp)).2.2 nmA (by simp)⟩

/-- C6: lookups signal absence as an ordinary result value, not an
exception: an unregistered name makes GetIdByName fail with NotFound, an
unregistered id makes GetNameById fail with NotFound, and a successful
GetNameById yields a name owned by (stored in) the registry. -/
theorem nameLookups_notFound (reg : NameComponent) (name : String)
    (id : EntityID) (h1 : name ∉ reg.names) (h2 : id ∉ reg.ids) :
    getIdByName reg name = Except.error ECSError.notFound ∧
    getNameById reg id = Except.error ECSError.notFound ∧
    (∀ i s, getNameById reg i = Except.ok s → s ∈ reg.names) :=
  ⟨getIdByName_not_mem reg name h1,
   getNameById_not_mem reg id h2,
   fun i s hs => getNameById_mem reg i s hs⟩

/-- Witness for C6 on a one-entry registry: absent name and absent id both
report NotFound. -/
theorem nameLookups_notFound_witness :
    getIdByName ⟨[7], [nmB]⟩ nmA = Except.error ECSError.notFound ∧
    getNameById ⟨[7], [nmB]⟩ 9 = Except.error ECSError.notFound :=
  ⟨(nameLookups_notFound ⟨[7], [nmB]⟩ nmA 9 (by simp [nmA, nmB]) (by simp)).1,
   (nameLookups_notFound ⟨[7], [nmB]⟩ nmA 9 (by simp [nmA, nmB]) (by simp)).2.1⟩

/-- When the top-level id and type arrays agree in length, every stored id
resolves through GetKind. -/
theorem getKind_isOk_of_mem (L : Light) (id : EntityID)
    (hlen : L.ids.length = L.types.length) (hmem : id ∈ L.ids) :
    ∃ k, L.getKind id = Except.ok k := by
  unfold Light.getKind
  have hmem2 : id ∈ (L.ids.zip L.types).map Prod.fst := by
    rw [List.map_fst_zip _ _ (le_of_eq hlen)]
    exact hmem
  obtain ⟨p, hp, hfst⟩ := List.mem_map.1 hmem2
  have hsome : ((L.ids.zip L.types).find? (fun p => p.1 == id)).isSome := by
    rw [List.find?_isSome]
    exact ⟨p, hp, by simp [hfst]⟩
  cases hf : (L.ids.zip L.types).find? (fun p => p.1 == id) with
  | none => rw [hf] at hsome; simp at hsome
  | some q => exact ⟨q.2, rfl⟩

/-- The empty light store, used as the concrete witness input. -/
def emptyLight : Light := ⟨[], [], [], ⟨[], []⟩, ⟨[], []⟩, ⟨[], []⟩⟩

/-- The light store obtained by bulk-adding entity 7 as a Point light to the
empty store. -/
def lightAfterTest : Light :=
  ⟨[7], [LightType.POINT], [true], ⟨[], []⟩,
   ⟨[7], [PointLight.mkDefault]⟩, ⟨[], []⟩⟩

/-- C3: the three top-level parallel arrays (ids, kind tags, active flags)
keep equal length across every successful BulkAdd, and every id added by the
call is afterwards retrievable via GetKind. -/
theorem light_bulkAdd_invariant (L L' : Light) (ids : List EntityID)
    (kinds : List LightType) (dp : List DirLight) (pp : List PointLight)
    (sp : List SpotLight)
    (hlen : L.ids.length = L.types.length ∧ L.ids.length = L.isActive.length)
    (hOk : L.bulkAdd ids kinds dp pp sp = Except.ok L') :
    (L'.ids.length = L'.types.length ∧ L'.ids.length = L'.isActive.length) ∧
    ∀ i ∈ ids, ∃ k, L'.getKind i = Except.ok k := by
  unfold Light.bulkAdd at hOk
  split at hOk
  case isFalse => cases hOk
  case isTrue hcond =>
    simp only [Bool.and_eq_true, decide_eq_true_eq] at hcond
    obtain ⟨⟨⟨⟨⟨hlk, _⟩, _⟩, _⟩, _⟩, _⟩ := hcond
    injection hOk with hL'
    subst hL'
    constructor
    · constructor
      · simp [List.length_append, hlen.1, hlk]
      · simp [List.length_append, List.length_replicate, hlen.2]
    · intro i hi
      apply getKind_isOk_of_mem
      · simp [List.length_append, hlen.1, hlk]
      · simp [hi]

/-- Witness for C3: bulk-adding entity 7 as a Point light to the empty store
succeeds, keeps the parallel arrays aligned, and GetKind finds the new id. -/
theorem light_bulkAdd_invariant_witness :
    ((lightAfterTest.ids.length = lightAfterTest.types.length ∧
      lightAfterTest.ids.length = lightAfterTest.isActive.length) ∧
     ∀ i ∈ [7], ∃ k, lightAfterTest.getKind i = Except.ok k) :=
  light_bulkAdd_invariant emptyLight lightAfterTest [7] [LightType.POINT]
    [] [PointLight.mkDefault] [] ⟨rfl, rfl⟩ rfl

/-- Reading back an encoded natural. -/
theorem readNat_enc (n : Nat) (rest : List Tok) :
    readNat (encNat n ++ rest) = some (n, rest) := rfl

/-- Reading back an encoded string. -/
theorem readStr_enc (s : String) (rest : List Tok) :
    readStr (encStr s ++ rest) = some (s, rest) := rfl

/-- Reading back an encoded boolean. -/
theorem readBool_enc (b : Bool) (rest : List Tok) :
    readBool (encBool b ++ rest) = some (b, rest) := by
  cases b <;> rfl

/-- Reading back an encoded light-kind tag. -/
theorem readLightType_enc (t : LightType) (rest : List Tok) :
    readLightType (encLightType t ++ rest) = some (t, rest) := by
  cases t <;> rfl

/-- Reading back an encoded 4-component vector. -/
theorem readFloat4_enc (v : Float4) (rest : List Tok) :
    readFloat4 (encFloat4 v ++ rest) = some (v, rest) := rfl

/-- Reading back an encoded 3-component vector. -/
theorem readFloat3_enc (v : Float3) (rest : List Tok) :
    readFloat3 (encFloat3 v ++ rest) = some (v, rest) := rfl

/-- Reading back an encoded DirLight record. -/
theorem readDirLight_enc (d : DirLight) (rest : List Tok) :
    readDirLight (encDirLight d ++ rest) = some (d, rest) := by
  simp [readDirLight, encDirLight, List.append_assoc, readFloat4_enc]

/-- Reading back an encoded PointLight record. -/
theorem readPointLight_enc (p : PointLight) (rest : List Tok) :
    readPointLight (encPointLight p ++ rest) = some (p, rest) := by
  simp [readPointLight, encPointLight, List.append_assoc, readFloat4_enc,
    readFloat3_enc, readFlt]

/-- Reading back an encoded SpotLight record. -/
theorem readSpotLight_enc (p : SpotLight) (rest : List Tok) :
    readSpotLight (encSpotLight p ++ rest) = some (p, rest) := by
  simp [readSpotLight, encSpotLight, List.append_assoc, readFloat4_enc,
    readFloat3_enc, readFlt]

/-- Reading back exactly the records of an encoded list. -/
theorem readListN_enc {α : Type} (r : List Tok → Option (α × List Tok))
    (enc : α → List Tok)
    (hr : ∀ x rest, r (enc x ++ rest) = some (x, rest)) (l : List α) :
    ∀ rest : List Tok,
      readListN r l.length ((l.map enc).flatten ++ rest) = some (l, rest) := by
  induction l with
  | nil => intro rest; simp [readListN]
  | cons x xs ih =>
      intro rest
      simp [readListN, List.append_assoc, hr, ih]

/-- Reading back an encoded length-prefixed list. -/
theorem readListP_enc {α : Type} (r : List Tok → Option (α × List Tok))
    (enc : α → List Tok)
    (hr : ∀ x rest, r (enc x ++ rest) = some (x, rest)) (l : List α)
    (rest : List Tok) :
    readListP r (encListP enc l ++ rest) = some (l, rest) := by
  simp [readListP, encListP, readNat, readListN_enc r enc hr l rest]

/-- Registry round-trip at an arbitrary offset. -/
theorem serializeName_roundTrip (pre rest : List Tok) (reg : NameComponent) :
    deserializeNameAt (pre ++ (serializeName reg ++ rest)) pre.length = some reg := by
  unfold deserializeNameAt serializeName
  rw [List.drop_left]
  simp [List.append_assoc,
    readListP_enc readNat encNat readNat_enc,
    readListP_enc readStr encStr readStr_enc]

/-- Light-store round-trip at an arbitrary offset. -/
theorem serializeLight_roundTrip (pre rest : List Tok) (L : Light) :
    deserializeLightAt (pre ++ (serializeLight L ++ rest)) pre.length = some L := by
  unfold deserializeLightAt serializeLight
  rw [List.drop_left]
  simp [List.append_assoc,
    readListP_enc readNat encNat readNat_enc,
    readListP_enc readLightType encLightType readLightType_enc,
    readListP_enc readBool encBool readBool_enc,
    readListP_enc readDirLight encDirLight readDirLight_enc,
    readListP_enc readPointLight encPointLight readPointLight_enc,
    readListP_enc readSpotLight encSpotLight readSpotLight_enc]

/-- C7: serializing a registry state or a light-store state into a stream at
an offset and deserializing at the same offset restores an equivalent logical
state: the same id-to-name and id-to-light mappings, the same active flags,
and float parameter values carried verbatim (the bit-for-bit guarantee). -/
theorem serializeRoundTrip (pre rest : List Tok) (reg : NameComponent)
    (L : Light) :
    deserializeNameAt (pre ++ (serializeName reg ++ rest)) pre.length = some reg ∧
    deserializeLightAt (pre ++ (serializeLight L ++ rest)) pre.length = some L :=
  ⟨serializeName_roundTrip pre rest reg, serializeLight_roundTrip pre rest L⟩

end DoorsEngine
